import Mathlib

/-!
Verification of the Remotive job-extraction script (src/api_extraction.py).

The script is a three-stage pipeline:
  1. Fetch: one HTTP GET; the response body is parsed as JSON and the value
     at key "jobs" is extracted (response.json()["jobs"]).
  2. Flatten: pd.DataFrame(jobs) turns the record sequence into a table
     (columns = union of keys in first-seen order, missing keys become NaN).
  3. Write: df.to_csv("data/processed/remotive_jobs.csv", index=False)
     writes a header row plus one comma-separated line per record,
     truncating any previous file.

The embedding below models JSON values, the observable behaviour of the two
pandas calls the script makes, the response object, and the filesystem as a
map from paths to file contents.
-/

set_option autoImplicit false

namespace ApiExtraction

/-- A JSON value as produced by parsing the HTTP response body
(Python: None, bool, int, str, list, dict; key order of a dict is
insertion order, so an object is an ordered association list). -/
inductive JValue where
  | jnull : JValue
  | jbool : Bool → JValue
  | jint : Int → JValue
  | jstr : String → JValue
  | jarr : List JValue → JValue
  | jobj : List (String × JValue) → JValue

/-- Whether a value is a mapping (a Python dict). -/
def JValue.isObj : JValue → Bool
  | .jobj _ => true
  | _ => false

/-- Whether a value is a sequence (a Python list). -/
def JValue.isArr : JValue → Bool
  | .jarr _ => true
  | _ => false

/-- The fields of a mapping value; defaults to the empty mapping elsewhere
(only ever applied to values known to be mappings). -/
def JValue.objFields : JValue → List (String × JValue)
  | .jobj fs => fs
  | _ => []

/-- The elements of a sequence value; defaults to the empty sequence
elsewhere (only ever applied to values known to be sequences). -/
def JValue.arrItems : JValue → List JValue
  | .jarr vs => vs
  | _ => []

mutual

/-- Rendering of a JSON value by str() in Python, which is how pandas
prints a cell that is not missing: True/False for booleans, decimal for
integers, Python repr for nested lists and dicts. -/
def pyStr : JValue → String
  | .jnull => "None"
  | .jbool true => "True"
  | .jbool false => "False"
  | .jint n => toString n
  | .jstr s => "\x27" ++ s ++ "\x27"
  | .jarr vs => "[" ++ pyStrList vs ++ "]"
  | .jobj fs => "\x7b" ++ pyStrFields fs ++ "\x7d"

/-- Comma-separated rendering of the elements of a Python list. -/
def pyStrList : List JValue → String
  | [] => ""
  | [v] => pyStr v
  | v :: vs => pyStr v ++ ", " ++ pyStrList vs

/-- Comma-separated rendering of the entries of a Python dict. -/
def pyStrFields : List (String × JValue) → String
  | [] => ""
  | [(k, v)] => "\x27" ++ k ++ "\x27: " ++ pyStr v
  | (k, v) :: fs => "\x27" ++ k ++ "\x27: " ++ pyStr v ++ ", " ++ pyStrFields fs

end

/-- The in-memory table built by pd.DataFrame: a column list plus one row
per record; a cell is none when the record lacked the column's key (NaN). -/
structure Table where
  cols : List String
  cells : List (List (Option JValue))

/-- Append a key to the accumulator unless it is already present
(pandas unions dict keys keeping first-seen order). -/
def insertKey (acc : List String) (k : String) : List String :=
  if acc.contains k then acc else acc ++ [k]

/-- Fold the keys of one record into the accumulated column list. -/
def addKeys (acc : List String) (r : List (String × JValue)) : List String :=
  r.foldl (fun a kv => insertKey a kv.1) acc

/-- Union of all keys across the records, in first-seen order: the column
index pandas derives for a list of dicts. -/
def unionKeys (recs : List (List (String × JValue))) : List String :=
  recs.foldl addKeys []

/-- Behaviour of pd.DataFrame on the extracted "jobs" value.
  - An empty list gives the empty table (no columns, no rows).
  - A list whose first element is a dict takes the list-of-dicts path:
    every element must then answer .keys(), so a non-dict element raises
    (AttributeError); otherwise columns are the first-seen-order union of
    keys and each row holds the record's value per column, NaN if absent.
  - A list whose first element is a list is tabulated positionally: one
    column per position named by its index, rows the element sequences,
    shorter rows padded with NaN; a non-list element after a list head
    raises (TypeError).
  - A list whose first element is not list-like is coerced by numpy into
    a single object column named 0, one cell per element, whatever the
    later elements are — no error is raised.
  - A dict argument is taken as a mapping from column name to column; it
    is modelled here for the dict-of-equal-length-sequences shape, which
    builds that table. The remaining dict shapes (scalar broadcasting,
    Series index alignment) are beyond the modelled scope and folded into
    the error case; no property below reaches a dict argument at all.
  - A scalar argument raises (DataFrame constructor not properly
    called). -/
def pdDataFrame : JValue → Except Unit Table
  | .jarr [] => .ok ⟨[], []⟩
  | .jarr (JValue.jobj r0 :: rest) =>
      if rest.all JValue.isObj then
        let recs := r0 :: rest.map JValue.objFields
        let cols := unionKeys recs
        .ok ⟨cols, recs.map (fun r => cols.map (fun k => List.lookup k r))⟩
      else .error ()
  | .jarr (JValue.jarr row0 :: rest) =>
      if rest.all JValue.isArr then
        let rows := row0 :: rest.map JValue.arrItems
        let n := rows.foldl (fun m row => max m row.length) 0
        .ok ⟨(List.range n).map toString,
             rows.map (fun row => (List.range n).map (fun j => row.get? j))⟩
      else .error ()
  | .jarr (v :: vs) => .ok ⟨["0"], (v :: vs).map (fun w => [some w])⟩
  | .jobj fields =>
      if fields.all (fun kv => kv.2.isArr) then
        let colsv := fields.map (fun kv => kv.2.arrItems)
        if colsv.all (fun c => c.length = (colsv.headD []).length) then
          .ok ⟨fields.map Prod.fst,
               (List.range (colsv.headD []).length).map
                 (fun i => colsv.map (fun c => c.get? i))⟩
        else .error ()
      else .error ()
  | _ => .error ()

/-- Rendering of one cell by to_csv: a missing cell (NaN) and an explicit
None both render as the empty string (the default na_rep), a string renders
as its own text, any other value via str(). -/
def renderCell : Option JValue → String
  | none => ""
  | some .jnull => ""
  | some (.jstr s) => s
  | some v => pyStr v

/-- Whether a field must be quoted under the csv QUOTE_MINIMAL policy that
to_csv uses: it contains a comma, a double quote, or a line break. -/
def needsQuoting (s : String) : Bool :=
  s.data.any (fun c => c == ',' || c == '\x22' || c == '\n' || c == '\r')

/-- Double every double-quote character, the csv escape inside a quoted
field. -/
def escapeQuotes : List Char → List Char
  | [] => []
  | c :: cs =>
      if c == '\x22' then '\x22' :: '\x22' :: escapeQuotes cs
      else c :: escapeQuotes cs

/-- One field as to_csv emits it: quoted with inner quotes doubled when it
needs quoting, verbatim otherwise. -/
def csvField (s : String) : String :=
  if needsQuoting s then "\x22" ++ String.mk (escapeQuotes s.data) ++ "\x22"
  else s

/-- Join rendered fields with commas. -/
def joinCommas : List String → String
  | [] => ""
  | [s] => s
  | s :: ss => s ++ "," ++ joinCommas ss

/-- One line of the csv output for a list of field texts. -/
def csvLine (fields : List String) : String :=
  joinCommas (fields.map csvField)

/-- Whether a cell holds an integer. -/
def isIntCell : Option JValue → Bool
  | some (.jint _) => true
  | _ => false

/-- Whether a cell is missing for dtype inference: an absent key (NaN) or
an explicit null (None, which pandas also treats as missing). -/
def isMissingCell : Option JValue → Bool
  | none => true
  | some .jnull => true
  | _ => false

/-- Pandas dtype inference per column: a column whose values are all
integers or missing, with at least one of each, is upcast to float64 (the
missing entries become NaN, which int64 cannot hold). Columns of other
mixes keep object (or int64/bool) dtype, whose cells render one by one. -/
def columnUpcastsToFloat (col : List (Option JValue)) : Bool :=
  col.all (fun c => isIntCell c || isMissingCell c)
  && col.any isIntCell
  && col.any isMissingCell

/-- Rendering of one cell of a column upcast to float64: missing and
explicit null (both NaN after the upcast) are empty, and the integer n
prints as its float64 repr. Every statement below that evaluates such a
cell does so at a magnitude far below 2^53, where float64 is exact and
the repr is the decimal digits followed by .0; larger magnitudes round
and switch to exponent notation, float behaviour nothing here quantifies
over. Other value shapes cannot occur in an upcast column (the guard
admits only integer and missing cells). -/
def renderFloatCell : Option JValue → String
  | some (.jint n) => toString n ++ ".0"
  | _ => ""

/-- Render one table row given the per-column float-upcast flags. -/
def renderRow (floats : List Bool) (row : List (Option JValue)) : List String :=
  List.zipWith (fun f c => if f then renderFloatCell c else renderCell c) floats row

/-- The float-upcast flag of every column of a table, in column order. -/
def colFlags (t : Table) : List Bool :=
  (List.range t.cols.length).map
    (fun j => columnUpcastsToFloat (t.cells.map (fun row => (row.get? j).getD none)))

/-- The lines to_csv produces with index=False: the header row of column
names, then one line per table row with every cell rendered under its
column's inferred dtype. No row-index column is emitted. -/
def toCsvLines (t : Table) : List String :=
  csvLine t.cols :: t.cells.map (fun row => csvLine (renderRow (colFlags t) row))

/-- The full file content: every line followed by the line terminator. -/
def toCsvString (t : Table) : String :=
  String.join ((toCsvLines t).map (fun l => l ++ "\n"))

/-- The HTTP response of requests.get: a status code and a body that either
parses as JSON or does not (none). requests does not raise on a bad status;
only response.json() can raise here. -/
structure Response where
  statusCode : Nat
  body : Option JValue

/-- response.json(): the parsed body, raising (error) when the body is not
valid JSON. The status code is not consulted. -/
def Response.json (r : Response) : Except Unit JValue :=
  match r.body with
  | some v => .ok v
  | none => .error ()

/-- Python subscription v[k] for a string key: a dict lookup that raises
KeyError when the key is absent, and TypeError on any non-dict. -/
def JValue.getItem (v : JValue) (k : String) : Except Unit JValue :=
  match v with
  | .jobj fs =>
      match List.lookup k fs with
      | some x => .ok x
      | none => .error ()
  | _ => .error ()

/-- The filesystem, as the map from paths to the content of existing
files. -/
def FS : Type := String → Option String

/-- Writing a file truncates: the content at the path is replaced outright,
every other path is untouched. -/
def FS.write (fs : FS) (path content : String) : FS :=
  fun q => if q = path then some content else fs q

/-- The fixed request URL of the script. -/
def url : String := "https://remotive.io/api/remote-jobs?search=data"

/-- The fixed output path of the script. -/
def outputPath : String := "data/processed/remotive_jobs.csv"

/-- The whole script, from the received response on: parse the body, take
the "jobs" field, build the DataFrame, write the csv. Any raised exception
(error) terminates the process before the write. -/
def runScript (response : Response) (fs : FS) : Except Unit FS :=
  match response.json with
  | .error e => .error e
  | .ok body =>
      match body.getItem "jobs" with
      | .error e => .error e
      | .ok jobs =>
          match pdDataFrame jobs with
          | .error e => .error e
          | .ok df => .ok (FS.write fs outputPath (toCsvString df))

/-- The filesystem after the process exits: updated on success, unchanged
when the process died on an unhandled exception before the write. -/
def runFS (response : Response) (fs : FS) : FS :=
  match runScript response fs with
  | .ok fs' => fs'
  | .error _ => fs

/-- The table pd.DataFrame yields on a list of records, spelled out: the
first-seen-order union of keys as columns, one row per record, each cell
the record's value at the column's key when present. Proved below to be
exactly what pdDataFrame returns on a list of mappings. -/
def flattenRecords (recs : List (List (String × JValue))) : Table :=
  ⟨unionKeys recs, recs.map (fun r => (unionKeys recs).map (fun k => List.lookup k r))⟩

/-- Accumulator form of the naive comma split. -/
def splitCommasAux : List Char → List Char → List String
  | [], cur => [String.mk cur.reverse]
  | c :: cs, cur =>
      if c = ',' then String.mk cur.reverse :: splitCommasAux cs []
      else splitCommasAux cs (c :: cur)

/-- The parse-back step of the round-trip property: split a written line on
every comma, with no awareness of csv quoting. -/
def splitCommas (s : String) : List String :=
  splitCommasAux s.data []

/-- A filesystem with no files, for concrete runs. -/
def fsEmpty : FS := fun _ => none

/-- The "jobs" value of the concrete scenario in the spec. -/
def jobs3 : JValue :=
  .jarr
    [ .jobj [("id", .jint 1), ("title", .jstr "Data Engineer")],
      .jobj [("id", .jint 2), ("title", .jstr "Analyst"), ("remote", .jbool true)] ]

/-- The full response of the concrete scenario. -/
def resp3 : Response := ⟨200, some (.jobj [("jobs", jobs3)])⟩

/-- A response with a failing status code whose body is nevertheless valid
JSON with a "jobs" key. -/
def resp4 : Response := ⟨500, some (.jobj [("jobs", .jarr [])])⟩

/-- A successful response whose "jobs" array is empty. -/
def resp7 : Response := ⟨200, some (.jobj [("jobs", .jarr [])])⟩

/-- A successful response whose "jobs" array holds a single non-mapping
element. -/
def resp9 : Response := ⟨200, some (.jobj [("jobs", .jarr [.jint 5])])⟩

/-- A successful response whose parsed body has no "jobs" key. -/
def resp5 : Response := ⟨200, some (.jobj [("data", .jarr [])])⟩

/-- Two records with heterogeneous key sets. -/
def recs1 : List (List (String × JValue)) :=
  [ [("id", .jint 1), ("title", .jstr "Data Engineer")],
    [("id", .jint 2), ("title", .jstr "Analyst"), ("salary", .jint 50000)] ]

/-- The table the flatten step builds for recs1. -/
def tbl1 : Table :=
  ⟨["id", "title", "salary"],
   [[some (.jint 1), some (.jstr "Data Engineer"), none],
    [some (.jint 2), some (.jstr "Analyst"), some (.jint 50000)]]⟩

/-- Two records sharing one key set. -/
def recs2 : List (List (String × JValue)) :=
  [[("id", .jint 1)], [("id", .jint 2)]]

/-- The table the flatten step builds for recs2. -/
def tbl2 : Table := ⟨["id"], [[some (.jint 1)], [some (.jint 2)]]⟩

/-- Two records whose salary column mixes an integer with a missing
entry, triggering the float64 upcast. -/
def recs6b : List (List (String × JValue)) :=
  [[("id", .jint 1)], [("id", .jint 2), ("salary", .jint 50000)]]

/-- The table the flatten step builds for recs6b. -/
def tbl6b : Table :=
  ⟨["id", "salary"],
   [[some (.jint 1), none], [some (.jint 2), some (.jint 50000)]]⟩

/-- A single record whose rendered cells need no csv quoting. -/
def rec6 : List (String × JValue) := [("id", .jint 1)]

/-- The table the flatten step builds for the single record rec6. -/
def tbl6 : Table := ⟨["id"], [[some (.jint 1)]]⟩

/-- A single-record input for the writer-shape property. -/
def recs8 : List (List (String × JValue)) := [[("id", .jint 1)]]

/-- The filesystem after a successful run on recs8 from an empty start. -/
def fs8 : FS := FS.write fsEmpty outputPath (toCsvString (flattenRecords recs8))

/-! Helper lemmas. -/

theorem objFields_map_jobj (rs : List (List (String × JValue))) :
    (rs.map JValue.jobj).map JValue.objFields = rs := by
  induction rs with
  | nil => rfl
  | cons r rs ih => simp [JValue.objFields, ih]

theorem all_isObj_map_jobj (rs : List (List (String × JValue))) :
    (rs.map JValue.jobj).all JValue.isObj = true := by
  induction rs with
  | nil => rfl
  | cons r rs ih => simp [JValue.isObj, ih]

theorem pdDataFrame_records (recs : List (List (String × JValue))) :
    pdDataFrame (JValue.jarr (recs.map JValue.jobj)) = .ok (flattenRecords recs) := by
  cases recs with
  | nil => rfl
  | cons r rs =>
      simp only [List.map_cons, pdDataFrame, all_isObj_map_jobj, if_true,
        objFields_map_jobj, flattenRecords]

theorem mem_insertKey {k k' : String} {acc : List String} :
    k ∈ insertKey acc k' ↔ k ∈ acc ∨ k = k' := by
  unfold insertKey
  by_cases h : acc.contains k'
  · rw [if_pos h]
    have hk : k' ∈ acc := by simpa [List.elem_iff] using h
    constructor
    · exact Or.inl
    · rintro (h1 | rfl)
      · exact h1
      · exact hk
  · rw [if_neg h]
    simp [List.mem_append]

theorem mem_addKeys (k : String) (r : List (String × JValue)) : ∀ acc : List String,
    k ∈ addKeys acc r ↔ k ∈ acc ∨ ∃ v, (k, v) ∈ r := by
  induction r with
  | nil => intro acc; simp [addKeys]
  | cons kv r ih =>
      intro acc
      have hstep : addKeys acc (kv :: r) = addKeys (insertKey acc kv.1) r := rfl
      rw [hstep, ih, mem_insertKey]
      obtain ⟨k', v'⟩ := kv
      constructor
      · rintro ((h | rfl) | ⟨v, hv⟩)
        · exact Or.inl h
        · exact Or.inr ⟨v', List.mem_cons_self _ _⟩
        · exact Or.inr ⟨v, List.mem_cons_of_mem _ hv⟩
      · rintro (h | ⟨v, hv⟩)
        · exact Or.inl (Or.inl h)
        · rcases List.mem_cons.mp hv with h1 | h1
          · cases h1
            exact Or.inl (Or.inr rfl)
          · exact Or.inr ⟨v, h1⟩

theorem mem_unionKeys_aux (k : String) (recs : List (List (String × JValue))) :
    ∀ acc : List String,
    k ∈ recs.foldl addKeys acc ↔ k ∈ acc ∨ ∃ r ∈ recs, ∃ v, (k, v) ∈ r := by
  induction recs with
  | nil => intro acc; simp
  | cons r recs ih =>
      intro acc
      rw [List.foldl_cons, ih, mem_addKeys, or_assoc]
      apply or_congr_right
      simp [List.mem_cons, exists_eq_or_imp]

theorem mem_unionKeys (k : String) (recs : List (List (String × JValue))) :
    k ∈ unionKeys recs ↔ ∃ r ∈ recs, ∃ v, (k, v) ∈ r := by
  simpa using mem_unionKeys_aux k recs []

theorem mem_of_lookup_some {k : String} {v : JValue} :
    ∀ {r : List (String × JValue)}, List.lookup k r = some v → (k, v) ∈ r
  | [], h => by simp [List.lookup] at h
  | (k', v') :: r, h => by
      by_cases hk : (k == k') = true
      · have hl : List.lookup k ((k', v') :: r) = some v' := by
          simp [List.lookup, hk]
        rw [hl] at h
        cases h
        have hkk : k = k' := eq_of_beq hk
        subst hkk
        exact List.mem_cons_self _ _
      · have hl : List.lookup k ((k', v') :: r) = List.lookup k r := by
          simp [List.lookup, hk]
        rw [hl] at h
        exact List.mem_cons_of_mem _ (mem_of_lookup_some h)

theorem length_colFlags (t : Table) : (colFlags t).length = t.cols.length := by
  simp [colFlags]

theorem renderRow_of_not_float (flags : List Bool) (row : List (Option JValue))
    (hf : ∀ f ∈ flags, f = false) (hl : flags.length = row.length) :
    renderRow flags row = row.map renderCell := by
  induction flags generalizing row with
  | nil =>
      cases row with
      | nil => rfl
      | cons c cs => simp at hl
  | cons f fs ih =>
      cases row with
      | nil => simp at hl
      | cons c cs =>
          have hf0 : f = false := hf f (List.mem_cons_self _ _)
          subst hf0
          have ihr := ih cs (fun g hg => hf g (List.mem_cons_of_mem _ hg)) (by simpa using hl)
          simp only [renderRow] at ihr ⊢
          rw [List.zipWith_cons_cons, if_neg Bool.false_ne_true, List.map_cons, ihr]

theorem splitCommasAux_no_comma (cs : List Char) (h : ∀ c ∈ cs, c ≠ ',') :
    ∀ cur : List Char, splitCommasAux cs cur = [String.mk (cur.reverse ++ cs)] := by
  induction cs with
  | nil => intro cur; simp [splitCommasAux]
  | cons c cs ih =>
      intro cur
      have hc : c ≠ ',' := h c (List.mem_cons_self _ _)
      rw [splitCommasAux, if_neg hc, ih (fun x hx => h x (List.mem_cons_of_mem _ hx))]
      simp

theorem splitCommasAux_comma (cs rest : List Char) (h : ∀ c ∈ cs, c ≠ ',') :
    ∀ cur : List Char,
    splitCommasAux (cs ++ ',' :: rest) cur
      = String.mk (cur.reverse ++ cs) :: splitCommasAux rest [] := by
  induction cs with
  | nil => intro cur; simp [splitCommasAux]
  | cons c cs ih =>
      intro cur
      have hc : c ≠ ',' := h c (List.mem_cons_self _ _)
      rw [List.cons_append, splitCommasAux, if_neg hc,
        ih (fun x hx => h x (List.mem_cons_of_mem _ hx))]
      simp

theorem splitCommas_joinCommas : ∀ xs : List String, xs ≠ [] →
    (∀ x ∈ xs, ∀ c ∈ x.data, c ≠ ',') → splitCommas (joinCommas xs) = xs
  | [], h, _ => absurd rfl h
  | [x], _, h => by
      have hx := splitCommasAux_no_comma x.data (h x (List.mem_cons_self _ _)) []
      simpa [splitCommas, joinCommas] using hx
  | x :: y :: ys, _, h => by
      have hx : ∀ c ∈ x.data, c ≠ ',' := h x (List.mem_cons_self _ _)
      have hdata : (joinCommas (x :: y :: ys)).data
          = x.data ++ ',' :: (joinCommas (y :: ys)).data := by
        show (x ++ "," ++ joinCommas (y :: ys)).data = _
        rw [String.data_append, String.data_append]
        simp
      rw [splitCommas, hdata, splitCommasAux_comma x.data _ hx []]
      have ih := splitCommas_joinCommas (y :: ys) (by simp)
        (fun z hz => h z (List.mem_cons_of_mem _ hz))
      rw [show splitCommasAux (joinCommas (y :: ys)).data [] = splitCommas (joinCommas (y :: ys))
        from rfl, ih]
      simp

/-! Claim theorems. -/

/-- C1: for every sequence of job records (with possibly heterogeneous key
sets) the flatten step yields a table whose column set is the union of all
keys across the records, with one row per record, and the cell at every
(record, key) position where the record lacks the key is empty. -/
theorem C1_flatten_union_columns (recs : List (List (String × JValue))) (t : Table)
    (h : pdDataFrame (JValue.jarr (recs.map JValue.jobj)) = .ok t) :
    (∀ k, k ∈ t.cols ↔ ∃ r ∈ recs, ∃ v, (k, v) ∈ r)
    ∧ t.cells.length = recs.length
    ∧ t.cells = recs.map (fun r => t.cols.map (fun k => List.lookup k r))
    ∧ ∀ r ∈ recs, ∀ k : String, List.lookup k r = none →
        renderCell (List.lookup k r) = "" := by
  rw [pdDataFrame_records] at h
  injection h with h
  subst h
  refine ⟨fun k => mem_unionKeys k recs, by simp [flattenRecords], rfl, ?_⟩
  intro r hr k hk
  rw [hk]
  rfl

/-- Witness for C1 on two records with heterogeneous key sets. -/
theorem C1_flatten_union_columns_witness :
    (∀ k, k ∈ tbl1.cols ↔ ∃ r ∈ recs1, ∃ v, (k, v) ∈ r)
    ∧ tbl1.cells.length = recs1.length
    ∧ tbl1.cells = recs1.map (fun r => tbl1.cols.map (fun k => List.lookup k r))
    ∧ ∀ r ∈ recs1, ∀ k : String, List.lookup k r = none →
        renderCell (List.lookup k r) = "" :=
  C1_flatten_union_columns recs1 tbl1 rfl

/-- C2: for a response whose jobs all share one key set, the written table
has exactly one header row plus one data row per record. -/
theorem C2_row_count (recs : List (List (String × JValue))) (ks : List String)
    (_hk : ∀ r ∈ recs, r.map Prod.fst = ks) (t : Table)
    (h : pdDataFrame (JValue.jarr (recs.map JValue.jobj)) = .ok t) :
    (toCsvLines t).length = recs.length + 1 := by
  rw [pdDataFrame_records] at h
  injection h with h
  subst h
  simp [toCsvLines, flattenRecords]

/-- Witness for C2 on two records sharing the key set with one key. -/
theorem C2_row_count_witness : (toCsvLines tbl2).length = recs2.length + 1 :=
  C2_row_count recs2 ["id"] (by decide) tbl2 rfl

/-- C3: the concrete scenario of the spec writes exactly the csv
id,title,remote / 1,Data Engineer, / 2,Analyst,True. -/
theorem C3_concrete_scenario :
    runFS resp3 fsEmpty outputPath
      = some "id,title,remote\n1,Data Engineer,\n2,Analyst,True\n"
    ∧ toCsvLines ⟨["id", "title", "remote"],
        [[some (.jint 1), some (.jstr "Data Engineer"), none],
         [some (.jint 2), some (.jstr "Analyst"), some (.jbool true)]]⟩
      = ["id,title,remote", "1,Data Engineer,", "2,Analyst,True"] :=
  ⟨rfl, rfl⟩

/-- C4 (counterexample): a response with status 500 whose body is valid
JSON holding a "jobs" key is processed normally — the script checks no
status code, so the run succeeds and creates the output file instead of
terminating with a fatal error. -/
theorem C4_counterexample :
    resp4.statusCode = 500
    ∧ fsEmpty outputPath = none
    ∧ runFS resp4 fsEmpty outputPath = some "\n" :=
  ⟨rfl, rfl, rfl⟩

/-- C4 (amended): the script never consults the HTTP status code — for a
fixed body its behaviour is identical under every status — and when the
body fails to parse as JSON the run is fatal and the filesystem is left
untouched. -/
theorem C4_status_never_checked (s s' : Nat) (b : Option JValue) (fs : FS) :
    runScript ⟨s, b⟩ fs = runScript ⟨s', b⟩ fs
    ∧ (Response.json ⟨s, b⟩ = .error () →
        runScript ⟨s, b⟩ fs = .error () ∧ runFS ⟨s, b⟩ fs = fs) := by
  refine ⟨rfl, ?_⟩
  cases b with
  | none => exact fun _ => ⟨rfl, rfl⟩
  | some v => exact fun h => absurd h (by simp [Response.json])

/-- Witness for C4 (amended): statuses 500 and 200 agree on a malformed
body, the run is fatal and no file appears. -/
theorem C4_status_never_checked_witness :
    runScript ⟨500, none⟩ fsEmpty = runScript ⟨200, none⟩ fsEmpty
    ∧ runScript ⟨500, none⟩ fsEmpty = Except.error ()
    ∧ runFS ⟨500, none⟩ fsEmpty = fsEmpty :=
  ⟨(C4_status_never_checked 500 200 none fsEmpty).1,
   ((C4_status_never_checked 500 200 none fsEmpty).2 rfl).1,
   ((C4_status_never_checked 500 200 none fsEmpty).2 rfl).2⟩

/-- C5: when the parsed body lacks a "jobs" key the run terminates with a
fatal error before any write, and the filesystem — the output path
included — is not created or modified. -/
theorem C5_missing_jobs_key (r : Response) (j : JValue) (fs : FS)
    (hj : r.json = .ok j) (hk : j.getItem "jobs" = .error ()) :
    runScript r fs = .error () ∧ runFS r fs = fs := by
  have h1 : runScript r fs = .error () := by
    simp [runScript, hj, hk]
  refine ⟨h1, ?_⟩
  simp [runFS, h1]

/-- Witness for C5 on a body whose only key is "data". -/
theorem C5_missing_jobs_key_witness :
    runScript resp5 fsEmpty = Except.error () ∧ runFS resp5 fsEmpty = fsEmpty :=
  C5_missing_jobs_key resp5 (.jobj [("data", .jarr [])]) fsEmpty rfl rfl

/-- C6 (counterexample): the naive round-trip fails two ways. A field
rendering with a comma is quoted by the writer, so splitting the written
line on commas yields two mangled fields, both non-empty and neither
equal to the original field. And an integer column with a missing entry
is upcast to float64, so the program writes 2,50000.0 for the record with
salary 50000 — the recovered field 50000.0 is non-empty and equals no
rendering of an original field. -/
theorem C6_counterexample :
    (pdDataFrame (.jarr [.jobj [("title", .jstr "a,b")]])
      = .ok ⟨["title"], [[some (.jstr "a,b")]]⟩
    ∧ toCsvLines ⟨["title"], [[some (.jstr "a,b")]]⟩ = ["title", "\x22a,b\x22"]
    ∧ splitCommas "\x22a,b\x22" = ["\x22a", "b\x22"]
    ∧ ∀ f ∈ splitCommas "\x22a,b\x22", f ≠ "" ∧ f ≠ renderCell (some (.jstr "a,b")))
    ∧ (pdDataFrame (.jarr (recs6b.map .jobj)) = .ok tbl6b
    ∧ toCsvLines tbl6b = ["id,salary", "1,", "2,50000.0"]
    ∧ splitCommas "2,50000.0" = ["2", "50000.0"]
    ∧ ("50000.0" : String) ≠ ""
    ∧ ∀ kv ∈ [("id", JValue.jint 2), ("salary", JValue.jint 50000)],
        renderCell (some kv.2) ≠ "50000.0") := by
  refine ⟨⟨rfl, rfl, rfl, ?_⟩, rfl, rfl, rfl, ?_, ?_⟩
  · decide
  · decide
  · decide

/-- C6 (amended): when no rendered cell of any record needs csv quoting
(no comma, double quote, or line break), no column is upcast to float64
(no integer column has a missing or null entry), and the column set is
non-empty, splitting a written data line on commas recovers exactly the
row's rendered cells, and every non-empty recovered field is the
rendering of one of the original record's fields. -/
theorem C6_roundtrip_no_quoting (recs : List (List (String × JValue))) (t : Table)
    (_h : pdDataFrame (JValue.jarr (recs.map JValue.jobj)) = .ok t)
    (hcols : t.cols ≠ [])
    (hfloat : ∀ f ∈ colFlags t, f = false)
    (hclean : ∀ r ∈ recs, ∀ k ∈ t.cols, needsQuoting (renderCell (List.lookup k r)) = false) :
    ∀ r ∈ recs,
      splitCommas (csvLine (renderRow (colFlags t) (t.cols.map (fun k => List.lookup k r))))
        = t.cols.map (fun k => renderCell (List.lookup k r))
      ∧ ∀ s ∈ t.cols.map (fun k => renderCell (List.lookup k r)), s ≠ "" →
          ∃ k v, (k, v) ∈ r ∧ s = renderCell (some v) := by
  intro r hr
  have hrow : renderRow (colFlags t) (t.cols.map (fun k => List.lookup k r))
      = t.cols.map (fun k => renderCell (List.lookup k r)) := by
    rw [renderRow_of_not_float (colFlags t) _ hfloat (by simp [length_colFlags]),
      List.map_map]
    rfl
  rw [hrow]
  have hfields : ∀ s ∈ t.cols.map (fun k => renderCell (List.lookup k r)),
      needsQuoting s = false := by
    intro s hs
    rcases List.mem_map.mp hs with ⟨k, hk, rfl⟩
    exact hclean r hr k hk
  constructor
  · have hmapid : (t.cols.map (fun k => renderCell (List.lookup k r))).map csvField
        = t.cols.map (fun k => renderCell (List.lookup k r)) := by
      rw [List.map_congr_left (g := id) (fun s hs => by simp [csvField, hfields s hs])]
      exact List.map_id _
    rw [csvLine, hmapid]
    apply splitCommas_joinCommas
    · intro hnil
      exact hcols (by simpa using hnil)
    · intro x hx c hc
      have hxq := hfields x hx
      rw [needsQuoting] at hxq
      intro hceq
      subst hceq
      have := (List.any_eq_false.mp hxq) _ hc
      simp at this
  · intro s hs hne
    rcases List.mem_map.mp hs with ⟨k, hk, rfl⟩
    cases hlk : List.lookup k r with
    | none =>
        rw [hlk] at hne
        exact absurd rfl hne
    | some v =>
        exact ⟨k, v, mem_of_lookup_some hlk, rfl⟩

/-- Witness for C6 (amended) on a single comma-free record with a
complete integer column. -/
theorem C6_roundtrip_no_quoting_witness :
    splitCommas (csvLine (renderRow (colFlags tbl6) (tbl6.cols.map (fun k => List.lookup k rec6))))
      = tbl6.cols.map (fun k => renderCell (List.lookup k rec6))
    ∧ ∀ s ∈ tbl6.cols.map (fun k => renderCell (List.lookup k rec6)), s ≠ "" →
        ∃ k v, (k, v) ∈ rec6 ∧ s = renderCell (some v) :=
  C6_roundtrip_no_quoting [rec6] tbl6 rfl (by decide) (by decide) (by decide)
    rec6 (List.mem_cons_self _ _)

/-- C7: an empty "jobs" array yields the empty table, whose written file is
a single empty header line and zero data rows. -/
theorem C7_empty_jobs :
    pdDataFrame (.jarr []) = .ok ⟨[], []⟩
    ∧ toCsvLines ⟨[], []⟩ = [""]
    ∧ runFS resp7 fsEmpty outputPath = some "\n" :=
  ⟨rfl, rfl, rfl⟩

/-- C8: a successful run writes the header row of column names followed by
one comma-separated line per record, emits no row-index column (every data
row has exactly one field per column), replaces whatever was at the output
path regardless of its prior content, and touches no other path. -/
theorem C8_write_shape (recs : List (List (String × JValue))) (s : Nat) (fs fs' : FS)
    (h : runScript ⟨s, some (.jobj [("jobs", .jarr (recs.map .jobj))])⟩ fs = .ok fs') :
    fs' outputPath = some (toCsvString (flattenRecords recs))
    ∧ (∀ q, q ≠ outputPath → fs' q = fs q)
    ∧ toCsvLines (flattenRecords recs)
        = csvLine (flattenRecords recs).cols
          :: (flattenRecords recs).cells.map
              (fun row => csvLine (renderRow (colFlags (flattenRecords recs)) row))
    ∧ (flattenRecords recs).cells.length = recs.length
    ∧ ∀ row ∈ (flattenRecords recs).cells,
        row.length = (flattenRecords recs).cols.length
        ∧ (renderRow (colFlags (flattenRecords recs)) row).length
            = (flattenRecords recs).cols.length := by
  have hrun : runScript ⟨s, some (.jobj [("jobs", .jarr (recs.map .jobj))])⟩ fs
      = .ok (FS.write fs outputPath (toCsvString (flattenRecords recs))) := by
    simp [runScript, Response.json, JValue.getItem, List.lookup, pdDataFrame_records]
  rw [hrun] at h
  injection h with h
  subst h
  refine ⟨?_, ?_, rfl, by simp [flattenRecords], ?_⟩
  · simp [FS.write]
  · intro q hq
    simp [FS.write, hq]
  · intro row hrow
    rcases List.mem_map.mp hrow with ⟨r, hr, rfl⟩
    have hlen : ((unionKeys recs).map (fun k => List.lookup k r)).length
        = (flattenRecords recs).cols.length := by
      simp [flattenRecords]
    refine ⟨hlen, ?_⟩
    rw [renderRow, List.length_zipWith, length_colFlags, hlen]
    simp

/-- Witness for C8 on a one-record response over the empty filesystem. -/
theorem C8_write_shape_witness :
    fs8 outputPath = some (toCsvString (flattenRecords recs8))
    ∧ (∀ q, q ≠ outputPath → fs8 q = fsEmpty q)
    ∧ toCsvLines (flattenRecords recs8)
        = csvLine (flattenRecords recs8).cols
          :: (flattenRecords recs8).cells.map
              (fun row => csvLine (renderRow (colFlags (flattenRecords recs8)) row))
    ∧ (flattenRecords recs8).cells.length = recs8.length
    ∧ ∀ row ∈ (flattenRecords recs8).cells,
        row.length = (flattenRecords recs8).cols.length
        ∧ (renderRow (colFlags (flattenRecords recs8)) row).length
            = (flattenRecords recs8).cols.length :=
  C8_write_shape recs8 200 fsEmpty fs8 rfl

/-- C9 (counterexample): a "jobs" array holding the single non-mapping
element 5 is not rejected — pandas coerces it to a one-column table and
the run silently writes a file, instead of the fatal error the claim
demands for every non-mapping element. -/
theorem C9_counterexample :
    (JValue.jint 5).isObj = false
    ∧ pdDataFrame (.jarr [.jint 5]) = .ok ⟨["0"], [[some (.jint 5)]]⟩
    ∧ runFS resp9 fsEmpty outputPath = some "0\n5\n" :=
  ⟨rfl, rfl, rfl⟩

/-- C9 (amended): when the first element of the "jobs" array is a mapping,
any non-mapping element among the rest makes the flatten step raise, the
run terminate fatally, and the filesystem stay untouched; when the first
element is a non-mapping scalar the whole list is instead coerced to a
single object column named 0 and the run completes without error. -/
theorem C9_flatten_fatality_scope (r0 : List (String × JValue)) (rest : List JValue)
    (v : JValue) (hv : v ∈ rest) (hobj : v.isObj = false) (s : Nat) (fs : FS)
    (w : JValue) (ws : List JValue) (hw1 : w.isObj = false) (hw2 : w.isArr = false) :
    (pdDataFrame (.jarr (.jobj r0 :: rest)) = .error ()
    ∧ runScript ⟨s, some (.jobj [("jobs", .jarr (.jobj r0 :: rest))])⟩ fs = .error ()
    ∧ runFS ⟨s, some (.jobj [("jobs", .jarr (.jobj r0 :: rest))])⟩ fs = fs)
    ∧ (pdDataFrame (.jarr (w :: ws)) = .ok ⟨["0"], (w :: ws).map (fun x => [some x])⟩
    ∧ (runScript ⟨s, some (.jobj [("jobs", .jarr (w :: ws))])⟩ fs).isOk = true) := by
  have hall : rest.all JValue.isObj = false := by
    cases hall0 : rest.all JValue.isObj
    · rfl
    · have hv2 := List.all_eq_true.mp hall0 v hv
      rw [hobj] at hv2
      exact absurd hv2 (by simp)
  have h1 : pdDataFrame (.jarr (.jobj r0 :: rest)) = .error () := by
    simp [pdDataFrame, hall]
  have h2 : runScript ⟨s, some (.jobj [("jobs", .jarr (.jobj r0 :: rest))])⟩ fs
      = .error () := by
    simp [runScript, Response.json, JValue.getItem, List.lookup, h1]
  have h3 : pdDataFrame (.jarr (w :: ws)) = .ok ⟨["0"], (w :: ws).map (fun x => [some x])⟩ := by
    cases w with
    | jobj fs0 => exact absurd hw1 (by simp [JValue.isObj])
    | jarr vs0 => exact absurd hw2 (by simp [JValue.isArr])
    | jnull => rfl
    | jbool b0 => rfl
    | jint n0 => rfl
    | jstr s0 => rfl
  refine ⟨⟨h1, h2, by simp [runFS, h2]⟩, h3, ?_⟩
  simp [runScript, Response.json, JValue.getItem, List.lookup, h3]
  rfl

/-- Witness for C9 (amended): a mapping followed by the scalar 5 is
fatal with no write, while the scalar-headed singleton list of 5 is
coerced and the run succeeds. -/
theorem C9_flatten_fatality_scope_witness :
    (pdDataFrame (.jarr [.jobj [("id", .jint 1)], .jint 5]) = Except.error ()
    ∧ runScript ⟨200, some (.jobj [("jobs", .jarr [.jobj [("id", .jint 1)], .jint 5])])⟩
        fsEmpty = Except.error ()
    ∧ runFS ⟨200, some (.jobj [("jobs", .jarr [.jobj [("id", .jint 1)], .jint 5])])⟩
        fsEmpty = fsEmpty)
    ∧ (pdDataFrame (.jarr [.jint 5]) = .ok ⟨["0"], [.jint 5].map (fun x => [some x])⟩
    ∧ (runScript ⟨200, some (.jobj [("jobs", .jarr [.jint 5])])⟩ fsEmpty).isOk = true) :=
  C9_flatten_fatality_scope [("id", .jint 1)] [.jint 5] (.jint 5)
    (List.mem_cons_self _ _) rfl 200 fsEmpty (.jint 5) [] rfl rfl

/-- C10: a key mapped to JSON null renders as the empty cell, identical to
the cell of a record lacking the key entirely — the written csv cannot
distinguish an explicit null from an absent field. -/
theorem C10_null_equals_missing (r1 r2 : List (String × JValue)) (k : String)
    (h1 : List.lookup k r1 = some .jnull) (h2 : List.lookup k r2 = none) :
    renderCell (List.lookup k r1) = ""
    ∧ renderCell (List.lookup k r1) = renderCell (List.lookup k r2) := by
  rw [h1, h2]
  exact ⟨rfl, rfl⟩

/-- Witness for C10 on a record carrying an explicit null salary and a
record with no salary key. -/
theorem C10_null_equals_missing_witness :
    renderCell (List.lookup "salary" [("salary", JValue.jnull)]) = ""
    ∧ renderCell (List.lookup "salary" [("salary", JValue.jnull)])
      = renderCell (List.lookup "salary" ([] : List (String × JValue))) :=
  C10_null_equals_missing [("salary", .jnull)] [] "salary" rfl rfl

end ApiExtraction
